import Mathlib

/-!
Verification development for the `dedicated_disk_partition` reconciliation
core of the `dtvlinux.cis_hardening` Ansible collection, together with the
companion `filesystem_sync` module.  Python sources are embedded shallowly:
external probes (lvm queries, blkid, directory listings, mount/rsync exit
codes) become fields of an explicit system-state record, the fstab file
becomes a list of line strings, and the module's `main` becomes a pure
function from parameters and system state to either a fatal error message
(`fail_json`) or a run result (`exit_json`).
-/

set_option maxRecDepth 4096

namespace CisHardening

/-! ### Small string helpers shared by the embedded modules -/

/-- Python `s.rstrip('/')`: drop every trailing `'/'`. -/
def rstripSlash (s : String) : String :=
  ⟨(s.data.reverse.dropWhile (fun c => c = '/')).reverse⟩

/-- Tokenize a list of characters on runs of whitespace, dropping empty
tokens; `wordsAux cs acc` carries the current (reversed) in-progress token.
This models Python's `re.split(r'\s+', line.strip())` as used on fstab
lines (the one divergence, an empty stripped line, yields `[]` here and
`['']` in Python; both fall below the six-field threshold). -/
def wordsAux : List Char → List Char → List (List Char)
  | [], acc => if acc.isEmpty then [] else [acc.reverse]
  | c :: cs, acc =>
    if c.isWhitespace then
      if acc.isEmpty then wordsAux cs [] else acc.reverse :: wordsAux cs []
    else
      wordsAux cs (c :: acc)

def wordsOf (cs : List Char) : List (List Char) := wordsAux cs []

/-- The whitespace-separated fields of an fstab line
(`re.split(r'\s+', line.strip())` in the source). -/
def fieldsOf (line : String) : List String :=
  (wordsOf line.data).map (fun w => ⟨w⟩)

/-- Python `line.startswith('#')`. -/
def isCommentLine (line : String) : Bool :=
  match line.data with
  | '#' :: _ => true
  | _ => false

/-- A token usable as a single fstab field: nonempty and free of
whitespace. -/
def goodToken (s : String) : Prop :=
  s.data ≠ [] ∧ ∀ c ∈ s.data, c.isWhitespace = false

instance (s : String) : Decidable (goodToken s) := by
  unfold goodToken; infer_instance

/-! ### `size_to_bytes` (dedicated_disk_partition.py lines 127-136)

The source uppercases the string, matches it against
`^(\d+(?:\.\d+)?)([BKMGT])?$`, and returns `int(num * multiplier)` with
binary multipliers.  The float product is modelled by the exact rational
floor `(I * 10^k + F) * m / 10^k` for integer part `I`, fraction digits `F`
(`k` of them) and multiplier `m`; a failed match is `none` (the `ValueError`
raised by the source). -/

def digitsVal (ds : List Char) : Nat :=
  ds.foldl (fun a c => a * 10 + (c.toNat - '0'.toNat)) 0

def unitMultiplier (c : Char) : Option Nat :=
  if c = 'B' then some 1
  else if c = 'K' then some 1024
  else if c = 'M' then some (1024 ^ 2)
  else if c = 'G' then some (1024 ^ 3)
  else if c = 'T' then some (1024 ^ 4)
  else none

def size_to_bytes (s : String) : Option Nat :=
  let cs := s.data.map Char.toUpper
  let intDigits := cs.takeWhile Char.isDigit
  let rest1 := cs.dropWhile Char.isDigit
  if intDigits.isEmpty then none
  else
    let fracAndRest : Option (List Char × List Char) :=
      match rest1 with
      | '.' :: r2 =>
        let fds := r2.takeWhile Char.isDigit
        if fds.isEmpty then none else some (fds, r2.dropWhile Char.isDigit)
      | r => some ([], r)
    match fracAndRest with
    | none => none
    | some (fds, rest2) =>
      let num10k := digitsVal intDigits * 10 ^ fds.length + digitsVal fds
      match rest2 with
      | [] => some (num10k / 10 ^ fds.length)
      | [u] =>
        match unitMultiplier u with
        | none => none
        | some m => some (num10k * m / 10 ^ fds.length)
      | _ => none

/-! ### Fstab reconciliation (dedicated_disk_partition.py lines 240-276) -/

/-- Per-line outcome of the scan loop in `check_fstab_entry`: a line is
`correct` when active, at least six fields, second field equal to the
target path and first field equal to the lv device or its mapper alias;
`previousEntry` when it matches the path but names another device; `other`
otherwise (comments, short lines, other paths). -/
inductive LineClass where
  | correct
  | previousEntry
  | other
deriving DecidableEq, Repr

def classifyLine (path dev mapper line : String) : LineClass :=
  if isCommentLine line then .other
  else
    let fields := fieldsOf line
    if fields.length < 6 then .other
    else if fields[1]? ≠ some path then .other
    else if fields[0]? = some dev ∨ fields[0]? = some mapper then .correct
    else .previousEntry

/-- An active (non-comment, ≥ 6 fields) fstab entry whose mount-point field
is `path` — the notion of "entry for the path" used by the module. -/
def isActiveEntryFor (path line : String) : Bool :=
  !isCommentLine line &&
    decide (6 ≤ (fieldsOf line).length) &&
    ((fieldsOf line)[1]? == some path)

/-- The scan `check_fstab_entry`: whether a correct entry exists, and how many
previous (stale) entries there are.  The source returns the list of indices
of the previous lines; since a line's classification depends only on its
content, the index list is used below only through its length and through
per-line commenting, both captured here. -/
def check_fstab_entry (path dev mapper : String) (lines : List String) :
    Bool × Nat :=
  (lines.any (fun l => classifyLine path dev mapper l == .correct),
   lines.countP (fun l => classifyLine path dev mapper l == .previousEntry))

/-- The line appended by `update_fstab` when no correct entry exists:
`f"{lv_device} {path} {fstype} defaults 0 0\n"` (options `FSTAB_OPTS =
'defaults'`, dump flag 0, pass number 0). -/
def mkFstabLine (dev path ft : String) : String :=
  dev ++ " " ++ path ++ " " ++ ft ++ " defaults 0 0\n"

/-- The commenting loop of `update_fstab`: each previous entry gets the
`"# "` prefixed form (`lines[idx] = f"# {lines[idx]}"`). -/
def commentStale (path dev mapper : String) (lines : List String) :
    List String :=
  lines.map (fun l =>
    if classifyLine path dev mapper l == .previousEntry then "# " ++ l else l)

/-- The reconciler `update_fstab`: comment out previous entries, append a new line when no
correct entry exists, and rewrite the file only if something changed.
Returns the `changed` flag and the resulting file content. -/
def update_fstab (path dev mapper ft : String) (lines : List String) :
    Bool × List String :=
  let scan := check_fstab_entry path dev mapper lines
  let commented := commentStale path dev mapper lines
  let newLines :=
    if scan.1 then commented else commented ++ [mkFstabLine dev path ft]
  let changed := decide (0 < scan.2) || !scan.1
  (changed, if changed then newLines else lines)

/-! ### Module parameters and probed system state -/

/-- The module parameters (`argument_spec` of `main`). -/
structure Params where
  device : String
  vg : String
  lv : String
  size : String
  fstype : String
  sync : Bool
  path : String
  excludes : Option (List String)
deriving Repr, DecidableEq

def lvDevice (vg lv : String) : String := "/dev/" ++ vg ++ "/" ++ lv

def lvMapper (vg lv : String) : String := "/dev/mapper/" ++ vg ++ "-" ++ lv

/-- The system state read by the module's probes: outcomes of
`check_block_device`, `check_device_in_use`, `vgs`, `pvs` (with the target
device path and the group's member paths both symlink-resolved via
`os.path.realpath`), `lvs` (existence and byte size), `blkid` on the lv
device (empty string when unformatted), the fstab file content, the source
directory probes (`os.path.isdir`, `os.listdir`), and the exit status of
the `mount` and `rsync` commands should the sync stage run them. -/
structure SysState where
  blockDevOk : Bool
  deviceInUse : Bool
  vgExists : Bool
  resolvedDevice : String
  vgMemberPVs : List String
  lvExists : Bool
  lvSizeBytes : Nat
  fsType : String
  fstab : List String
  pathIsDir : Bool
  pathNonEmpty : Bool
  mountOk : Bool
  rsyncOk : Bool
deriving Repr, DecidableEq

/-- The mutating stages of `main`, at the granularity of its result
messages: one action per stage that reports a change ("created VG",
"created LV", "resized LV and filesystem", "created filesystem", the fstab
update, the data sync) or, in check mode, per "would …" message. -/
inductive Action where
  | ensureVG
  | createLV
  | resizeLV
  | createFS
  | updateFstab
  | syncData
deriving DecidableEq, Repr

/-- What `exit_json` reports, plus the final fstab content. -/
structure RunResult where
  changed : Bool
  rebootRequired : Bool
  actions : List Action
  fstab : List String
deriving Repr, DecidableEq

def vgMismatchMsg (p : Params) : String :=
  "VG " ++ p.vg ++ " exists but specified device " ++ p.device ++
    " is not part of it; extension not allowed"

/-- The VG stage of `main` (lines 355-364 calling `ensure_vg`).  In check
mode only the snapshot is consulted ("would ensure VG and PV" iff the
group is missing).  In apply mode `ensure_vg` creates the group when
missing (always a change) and otherwise fails fatally unless the resolved
device is among the group's resolved physical volumes. -/
def vgStage (p : Params) (checkMode : Bool) (st : SysState) :
    Except String Bool :=
  if checkMode then .ok (!st.vgExists)
  else if !st.vgExists then .ok true
  else if st.resolvedDevice ∈ st.vgMemberPVs then .ok false
  else .error (vgMismatchMsg p)

/-- The resize stage of `main` (lines 376-388): only entered when the LV
already exists; a malformed size string (or unparsable `lvs` output) is the
`ValueError` caught and turned into a fatal "Size comparison failed" error;
otherwise a resize is due exactly when the requested byte size exceeds the
current one.  Identical in check and apply mode. -/
def resizeStage (p : Params) (st : SysState) : Except String Bool :=
  if st.lvExists then
    match size_to_bytes p.size with
    | none => .error "Size comparison failed: Invalid size format"
    | some req => .ok (decide (st.lvSizeBytes < req))
  else .ok false

/-- The sync stage of `main` (lines 424-433) and `sync_data`.  Runs only
when sync is requested and the filesystem was created this run.  Check
mode probes the source directory; apply mode creates a missing source
directory, skips an empty one, and otherwise mounts and rsyncs, each
non-zero exit being fatal. -/
def syncStage (p : Params) (checkMode : Bool) (st : SysState)
    (fsCreated : Bool) (dev : String) : Except String Bool :=
  if p.sync && fsCreated then
    if checkMode then .ok (!st.pathIsDir || st.pathNonEmpty)
    else if !st.pathIsDir then .ok true
    else if !st.pathNonEmpty then .ok false
    else if !st.mountOk then .error ("Failed to mount " ++ dev ++ ": <err>")
    else if !st.rsyncOk then .error "Rsync failed: <err>"
    else .ok true
  else .ok false

/-- The `main` entry point of `dedicated_disk_partition.py` (lines
327-456): validate the device, run the VG / LV / resize / filesystem /
fstab / sync stages in order, and report `changed`, `reboot_required` and
the per-stage actions.  `checkMode = true` is Ansible check (dry-run) mode;
it must not mutate anything, so the reported fstab equals the input one. -/
def runModule (p : Params) (checkMode : Bool) (st : SysState) :
    Except String RunResult :=
  if !st.blockDevOk then
    .error (p.device ++ " is not a valid block device")
  else if st.deviceInUse then
    .error (p.device ++ " is already in use or part of another configuration")
  else
    match vgStage p checkMode st with
    | .error e => .error e
    | .ok vgChanged =>
      let lvCreated := !st.lvExists
      match resizeStage p st with
      | .error e => .error e
      | .ok resized =>
        let fsCreated := lvCreated || st.fsType == ""
        let currentFstype := if fsCreated then p.fstype else st.fsType
        let path := rstripSlash p.path
        let dev := lvDevice p.vg p.lv
        let mapper := lvMapper p.vg p.lv
        let scan := check_fstab_entry path dev mapper st.fstab
        let doFstab := (st.lvExists || lvCreated) &&
          (decide (0 < scan.2) || !scan.1)
        let newFstab :=
          if checkMode then st.fstab
          else if doFstab then (update_fstab path dev mapper currentFstype st.fstab).2
          else st.fstab
        match syncStage p checkMode st (!st.lvExists || st.fsType == "")
            (lvDevice p.vg p.lv) with
        | .error e => .error e
        | .ok syncChanged =>
          let acts :=
            (if vgChanged then [Action.ensureVG] else []) ++
            (if lvCreated then [Action.createLV] else []) ++
            (if resized then [Action.resizeLV] else []) ++
            (if fsCreated then [Action.createFS] else []) ++
            (if doFstab then [Action.updateFstab] else []) ++
            (if syncChanged then [Action.syncData] else [])
          let rebootBase := vgChanged || lvCreated || fsCreated || doFstab ||
            syncChanged
          if checkMode then
            let changedC := !acts.isEmpty
            let reboot :=
              if changedC then !(acts == [Action.resizeLV]) else rebootBase
            .ok ⟨changedC, reboot, acts, st.fstab⟩
          else
            let changed := vgChanged || lvCreated || resized || fsCreated ||
              doFstab || syncChanged
            .ok ⟨changed, rebootBase, acts, newFstab⟩

/-! ### Exclusion-pattern resolution (lines 278-294 and 418-423 of
`dedicated_disk_partition.py`; lines 111-124 of `filesystem_sync.py`) -/

/-- The `default_excludes_map`, identical in both modules. -/
def default_excludes_map (path : String) : List String :=
  if path = "/var" then ["log/*", "tmp/*"]
  else if path = "/var/log" then ["audit/*"]
  else []

/-- The exclusion patterns of the rsync command built by
`DedicatedDiskPartition.sync_data`: the always-applied `'lost+found/'`
followed by the user-supplied list when given, else the path-keyed
defaults resolved in `main`. -/
def dedicatedRsyncExcludes (p : Params) : List String :=
  let path := rstripSlash p.path
  let active := p.excludes.getD (default_excludes_map path)
  "lost+found/" :: active

/-- The exclusion patterns of the rsync command built by
`filesystem_sync.run_module`: `'--exclude=lost+found'` is part of the base
command, followed by the user-supplied list when given, else the defaults. -/
def fsSyncRsyncExcludes (path0 : String) (userExcludes : Option (List String)) :
    List String :=
  let path := rstripSlash path0
  let active := userExcludes.getD (default_excludes_map path)
  "lost+found" :: active

/-! ### Traced data migration (`sync_data`, lines 278-311, and the
mount/rsync section of `filesystem_sync.run_module`, lines 126-139) -/

/-- Externally visible events of the migration: creating the source
directory, creating the temporary mount point, mounting, rsyncing,
unmounting and removing the mount point. -/
inductive SyncEv where
  | mkdirSource
  | mkdirTemp
  | mount
  | rsync
  | umount
  | rmdirTemp
deriving DecidableEq, Repr

/-- The method `DedicatedDiskPartition.sync_data` with its event trace.  A missing
source directory is created and the run ends there; an empty one is a
no-op.  Otherwise the temporary mount point is created and the
mount/rsync block runs inside `try:` with `finally:` unmounting and
removing the mount point on every exit path; a non-zero mount or rsync
exit becomes the module's fatal error after that cleanup. -/
def sync_data_traced (pathIsDir pathNonEmpty mountOk rsyncOk : Bool)
    (dev : String) : Except String (Bool × String) × List SyncEv :=
  if !pathIsDir then (.ok (true, "created source directory"), [.mkdirSource])
  else if !pathNonEmpty then (.ok (false, "source empty; no sync needed"), [])
  else if !mountOk then
    (.error ("Failed to mount " ++ dev ++ ": <err>"),
     [.mkdirTemp, .mount, .umount, .rmdirTemp])
  else if !rsyncOk then
    (.error "Rsync failed: <err>",
     [.mkdirTemp, .mount, .rsync, .umount, .rmdirTemp])
  else
    (.ok (true, "synced data"),
     [.mkdirTemp, .mount, .rsync, .umount, .rmdirTemp])

/-- The mount/sync section of `filesystem_sync.run_module` (the module has
already handled the missing/empty-source and check-mode exits): same
`try`/`finally` shape, same fatality of non-zero exits, same cleanup. -/
def fsSyncTraced (mountOk rsyncOk : Bool) (dev : String) :
    Except String String × List SyncEv :=
  if !mountOk then
    (.error ("Failed to mount " ++ dev ++ ": <err>"),
     [.mkdirTemp, .mount, .umount, .rmdirTemp])
  else if !rsyncOk then
    (.error "Rsync failed: <err>",
     [.mkdirTemp, .mount, .rsync, .umount, .rmdirTemp])
  else
    (.ok "synced", [.mkdirTemp, .mount, .rsync, .umount, .rmdirTemp])

/-! ### Mount-unit masking (spec §4.6) -/

/-- Strip leading and trailing `'/'` characters. -/
def stripSlashes (s : String) : String :=
  ⟨((s.data.dropWhile (fun c => c = '/')).reverse.dropWhile
      (fun c => c = '/')).reverse⟩

/-- Modelled from the spec: the plugin sources under `src/` contain no
mount-unit masking code (the MountUnitMasker stage of spec §4.6 lives in
the collection's role tasks, which are not part of the plugin sources).
Per the spec, the unit name is derived "by stripping leading/trailing
slashes from the path and replacing interior slashes with dashes,
suffixed `.mount`". -/
def unitNameOfPath (path : String) : String :=
  (⟨(stripSlashes path).data.map (fun c => if c = '/' then '-' else c)⟩ : String)
    ++ ".mount"

inductive MaskOutcome where
  | noAction
  | maskedAndReloaded (unit : String)
  | wouldMask (unit : String)
deriving DecidableEq, Repr

/-- Modelled from the spec: "If the unit is already masked or cannot be
queried, no action is taken.  Otherwise, in apply mode, it is masked and
the unit database reloaded; in dry-run mode, the intended mask action is
reported without execution." -/
def maskConflicting (path : String) (alreadyMasked canQuery checkMode : Bool) :
    MaskOutcome :=
  let unit := unitNameOfPath path
  if !canQuery || alreadyMasked then .noAction
  else if checkMode then .wouldMask unit
  else .maskedAndReloaded unit

/-- Modelled from the spec: the full reconciliation sequences the module
run first and evaluates the mask stage last ("validate device → ensure
volume group/logical volume → resize if needed → create filesystem if
needed → migrate data → reconcile fstab → mask conflicting mount unit"). -/
def reconcileFull (p : Params) (checkMode : Bool) (st : SysState)
    (alreadyMasked canQuery : Bool) :
    Except String (RunResult × MaskOutcome) :=
  match runModule p checkMode st with
  | .error e => .error e
  | .ok r => .ok (r, maskConflicting p.path alreadyMasked canQuery checkMode)

/-! ### Concrete example parameters and states, used by witnesses and
counterexamples below -/

/-- A typical parameter set: a 10G ext4 volume for `/var` on `/dev/sdb`. -/
def exParams : Params :=
  ⟨"/dev/sdb", "vg0", "lv0", "10G", "ext4", true, "/var", none⟩

/-- A fully converged state for `exParams`: group and volume exist, the
device is a member, the volume is 10GiB and formatted, the fstab already
holds exactly the correct entry, the source directory exists and is
non-empty, external commands succeed. -/
def exConverged : SysState :=
  { blockDevOk := true, deviceInUse := false, vgExists := true,
    resolvedDevice := "/dev/sdb", vgMemberPVs := ["/dev/sdb"],
    lvExists := true, lvSizeBytes := 10737418240, fsType := "ext4",
    fstab := ["/dev/vg0/lv0 /var ext4 defaults 0 0\n"],
    pathIsDir := true, pathNonEmpty := true, mountOk := true, rsyncOk := true }

/-- Like `exConverged` but the logical volume carries no filesystem
signature and the fstab is empty. -/
def exUnformatted : SysState :=
  { exConverged with fsType := "", fstab := [] }

/-- The group exists but the device is not among its physical volumes;
the volume and filesystem are absent. -/
def exMismatch : SysState :=
  { exConverged with
    vgMemberPVs := ["/dev/sdc"], lvExists := false,
    fsType := "", fstab := [] }

/-- A pristine system: nothing exists yet, source directory empty. -/
def exFresh : SysState :=
  { exConverged with
    vgExists := false, lvExists := false, fsType := "",
    fstab := [], pathNonEmpty := false }

/-- A fresh system whose source directory has data but whose mount command
fails. -/
def exMountFail : SysState :=
  { exFresh with pathNonEmpty := true, mountOk := false }

/-- Like `exParams` but with a malformed size string. -/
def exBadSize : Params := { exParams with size := "banana" }

/-! ### Helper lemmas: tokenization of well-formed fstab lines -/

lemma data_append (a b : String) : (a ++ b).data = a.data ++ b.data := rfl

lemma mk_data (s : String) : (⟨s.data⟩ : String) = s := rfl

lemma wordsAux_append_nonWs (w : List Char)
    (hw : ∀ c ∈ w, c.isWhitespace = false) :
    ∀ cs acc : List Char, wordsAux (w ++ cs) acc = wordsAux cs (w.reverse ++ acc) := by
  induction w with
  | nil => intro cs acc; simp
  | cons c w ih =>
    intro cs acc
    have hc : c.isWhitespace = false := hw c (List.mem_cons_self c w)
    have hw' : ∀ x ∈ w, x.isWhitespace = false := fun x hx =>
      hw x (List.mem_cons_of_mem c hx)
    simp only [List.cons_append, wordsAux, hc, Bool.false_eq_true, if_false,
      List.append_eq]
    rw [ih hw' cs (c :: acc)]
    simp

lemma wordsAux_space (cs acc : List Char) :
    wordsAux (' ' :: cs) acc =
      if acc.isEmpty then wordsAux cs [] else acc.reverse :: wordsAux cs [] := by
  have h : (' ' : Char).isWhitespace = true := rfl
  simp [wordsAux, h]

lemma wordsAux_token_space (w cs : List Char) (hne : w ≠ [])
    (hw : ∀ c ∈ w, c.isWhitespace = false) :
    wordsAux (w ++ ' ' :: cs) [] = w :: wordsAux cs [] := by
  rw [wordsAux_append_nonWs w hw (' ' :: cs) [], wordsAux_space]
  have h1 : (w.reverse ++ []).isEmpty = false := by
    rw [List.append_nil]
    cases hrv : w.reverse with
    | nil => exact absurd (List.reverse_eq_nil_iff.mp hrv) hne
    | cons a as => rfl
  rw [h1]
  simp

lemma data_mkFstabLine (dev path ft : String) :
    (mkFstabLine dev path ft).data =
      dev.data ++ ' ' :: (path.data ++ ' ' :: (ft.data ++ ' ' ::
        ("defaults 0 0\n" : String).data)) := by
  have h : (" " : String).data = [' '] := rfl
  have h2 : (" defaults 0 0\n" : String).data =
      ' ' :: ("defaults 0 0\n" : String).data := rfl
  simp [mkFstabLine, data_append, h, h2]

lemma fieldsOf_mkFstabLine (dev path ft : String)
    (hd : goodToken dev) (hp : goodToken path) (hf : goodToken ft) :
    fieldsOf (mkFstabLine dev path ft) = [dev, path, ft, "defaults", "0", "0"] := by
  unfold fieldsOf wordsOf
  rw [data_mkFstabLine]
  rw [wordsAux_token_space dev.data _ hd.1 hd.2]
  rw [wordsAux_token_space path.data _ hp.1 hp.2]
  rw [wordsAux_token_space ft.data _ hf.1 hf.2]
  have htail : wordsAux (("defaults 0 0\n" : String).data) [] =
      [['d','e','f','a','u','l','t','s'], ['0'], ['0']] := by rfl
  rw [htail]
  simp [mk_data]

/-! ### Helper lemmas: line classification -/

lemma goodToken_append (a b : String) (ha : goodToken a)
    (hb : ∀ c ∈ b.data, c.isWhitespace = false) : goodToken (a ++ b) := by
  constructor
  · rw [data_append]
    intro h
    exact ha.1 (List.append_eq_nil.mp h).1
  · intro c hc
    rw [data_append] at hc
    rcases List.mem_append.mp hc with h | h
    · exact ha.2 c h
    · exact hb c h

lemma goodToken_lvDevice (vg lv : String) (hvg : goodToken vg)
    (hlv : goodToken lv) : goodToken (lvDevice vg lv) := by
  unfold lvDevice
  refine goodToken_append _ _ (goodToken_append _ _ (goodToken_append _ _ ?_ hvg.2) ?_) hlv.2
  · exact ⟨by decide, by decide⟩
  · intro c hc
    have hc' : c ∈ ['/'] := hc
    have : c = '/' := List.mem_singleton.mp hc'
    subst this; rfl

lemma isComment_commented (l : String) : isCommentLine ("# " ++ l) = true := rfl

lemma isComment_mkFstabLine (vg lv path ft : String) :
    isCommentLine (mkFstabLine (lvDevice vg lv) path ft) = false := rfl

lemma classify_commented (path dev mapper l : String) :
    classifyLine path dev mapper ("# " ++ l) = .other := by
  unfold classifyLine
  rw [isComment_commented]
  simp

lemma classify_mkFstabLine (vg lv path ft : String)
    (hvg : goodToken vg) (hlv : goodToken lv) (hp : goodToken path)
    (hf : goodToken ft) :
    classifyLine path (lvDevice vg lv) (lvMapper vg lv)
      (mkFstabLine (lvDevice vg lv) path ft) = .correct := by
  unfold classifyLine
  rw [isComment_mkFstabLine]
  rw [fieldsOf_mkFstabLine _ _ _ (goodToken_lvDevice vg lv hvg hlv) hp hf]
  simp

lemma not_comment_of_classify_prev (path dev mapper l : String)
    (h : classifyLine path dev mapper l = .previousEntry) :
    isCommentLine l = false := by
  by_contra hcontra
  have hc : isCommentLine l = true := by
    cases hh : isCommentLine l
    · exact absurd hh hcontra
    · rfl
  unfold classifyLine at h
  rw [hc] at h
  simp at h

lemma isActive_eq_classify (path dev mapper l : String) :
    isActiveEntryFor path l =
      ((classifyLine path dev mapper l == .correct) ||
       (classifyLine path dev mapper l == .previousEntry)) := by
  unfold isActiveEntryFor classifyLine
  by_cases h1 : isCommentLine l = true
  · simp [h1]
  · have h1' : isCommentLine l = false := by
      cases hh : isCommentLine l
      · rfl
      · exact absurd hh h1
    by_cases h2 : (fieldsOf l).length < 6
    · have h6 : ¬ (6 ≤ (fieldsOf l).length) := by omega
      simp [h1', h2, h6]
    · have h6 : 6 ≤ (fieldsOf l).length := by omega
      by_cases h3 : (fieldsOf l)[1]? = some path
      · by_cases h4 : (fieldsOf l)[0]? = some dev ∨ (fieldsOf l)[0]? = some mapper
        · simp [h1', h2, h3, h4, h6]
        · simp [h1', h2, h3, h4, h6]
      · have hL : ((fieldsOf l)[1]? == some path) = false :=
          beq_eq_false_iff_ne.mpr h3
        simp [h1', h2, h3, h6, hL]

lemma countP_disjoint_or {α : Type} (p q : α → Bool) (l : List α)
    (h : ∀ a ∈ l, ¬(p a = true ∧ q a = true)) :
    l.countP (fun a => p a || q a) = l.countP p + l.countP q := by
  induction l with
  | nil => rfl
  | cons x xs ih =>
    have hx := h x (List.mem_cons_self x xs)
    have hxs : ∀ a ∈ xs, ¬(p a = true ∧ q a = true) := fun a ha =>
      h a (List.mem_cons_of_mem x ha)
    rw [List.countP_cons, List.countP_cons, List.countP_cons, ih hxs]
    cases hp : p x <;> cases hq : q x
    · simp [hp, hq]
    · simp [hp, hq]; omega
    · simp [hp, hq]; omega
    · rw [hp, hq] at hx
      exact absurd ⟨rfl, rfl⟩ hx

lemma classify_commentStale_f (path dev mapper l : String) :
    classifyLine path dev mapper
      (if classifyLine path dev mapper l == LineClass.previousEntry
        then "# " ++ l else l) =
      (if classifyLine path dev mapper l == LineClass.previousEntry
        then LineClass.other else classifyLine path dev mapper l) := by
  by_cases hl : classifyLine path dev mapper l = .previousEntry
  · have hb : (classifyLine path dev mapper l == LineClass.previousEntry) = true := by
      simp [hl]
    rw [hb]
    simp [classify_commented path dev mapper l]
  · have hb : (classifyLine path dev mapper l == LineClass.previousEntry) = false := by
      simp [hl]
    rw [hb]
    simp

lemma countP_correct_commentStale (path dev mapper : String) (lines : List String) :
    (commentStale path dev mapper lines).countP
        (fun l => classifyLine path dev mapper l == LineClass.correct) =
      lines.countP (fun l => classifyLine path dev mapper l == LineClass.correct) := by
  unfold commentStale
  induction lines with
  | nil => rfl
  | cons l ls ih =>
    rw [List.map_cons, List.countP_cons, List.countP_cons, ih]
    congr 1
    rw [classify_commentStale_f]
    by_cases hl : classifyLine path dev mapper l = .previousEntry
    · have hb : (classifyLine path dev mapper l == LineClass.previousEntry) = true := by
        simp [hl]
      rw [hb, hl]
      simp
    · have hb : (classifyLine path dev mapper l == LineClass.previousEntry) = false := by
        simp [hl]
      rw [hb]
      simp

lemma countP_prev_commentStale (path dev mapper : String) (lines : List String) :
    (commentStale path dev mapper lines).countP
        (fun l => classifyLine path dev mapper l == LineClass.previousEntry) = 0 := by
  unfold commentStale
  induction lines with
  | nil => rfl
  | cons l ls ih =>
    rw [List.map_cons, List.countP_cons, ih]
    rw [classify_commentStale_f]
    by_cases hl : classifyLine path dev mapper l = .previousEntry
    · have hb : (classifyLine path dev mapper l == LineClass.previousEntry) = true := by
        simp [hl]
      rw [hb]
      simp
    · have hb : (classifyLine path dev mapper l == LineClass.previousEntry) = false := by
        simp [hl]
      rw [hb]
      simp [hl]

lemma countP_comment_commentStale (path dev mapper : String) (lines : List String) :
    (commentStale path dev mapper lines).countP (fun l => isCommentLine l) =
      lines.countP (fun l => isCommentLine l) +
      lines.countP (fun l => classifyLine path dev mapper l == LineClass.previousEntry) := by
  unfold commentStale
  induction lines with
  | nil => rfl
  | cons l ls ih =>
    rw [List.map_cons, List.countP_cons, List.countP_cons, List.countP_cons, ih]
    by_cases hl : classifyLine path dev mapper l = .previousEntry
    · have hb : (classifyLine path dev mapper l == LineClass.previousEntry) = true := by
        simp [hl]
      have hno : isCommentLine l = false :=
        not_comment_of_classify_prev path dev mapper l hl
      simp [hb, hno, isComment_commented]
      omega
    · have hb : (classifyLine path dev mapper l == LineClass.previousEntry) = false := by
        simp [hl]
      simp [hb]
      omega

lemma countP_active_split (path dev mapper : String) (ls : List String) :
    ls.countP (fun l => isActiveEntryFor path l) =
      ls.countP (fun l => classifyLine path dev mapper l == LineClass.correct) +
      ls.countP (fun l => classifyLine path dev mapper l == LineClass.previousEntry) := by
  have h1 : ls.countP (fun l => isActiveEntryFor path l) =
      ls.countP (fun l =>
        (classifyLine path dev mapper l == LineClass.correct) ||
        (classifyLine path dev mapper l == LineClass.previousEntry)) := by
    apply List.countP_congr
    intro a _
    rw [isActive_eq_classify path dev mapper a]
  rw [h1]
  apply countP_disjoint_or
  intro a _ hcontra
  have hc := beq_iff_eq.mp hcontra.1
  have hp := beq_iff_eq.mp hcontra.2
  rw [hc] at hp
  cases hp

/-- C2: given `N` active fstab entries for the path, none of which
references the logical-volume device or its mapper alias, one
`update_fstab` run reports a change and yields a file with exactly one
active entry for the path — a newly appended correct one — the `N` stale
entries commented out (`'# '` prefix) rather than deleted, so the line
count grows by exactly one and the comment count by exactly `N`; a second
`update_fstab` run reports no change and leaves the file identical. -/
theorem fstab_single_active_entry
    (vg lv path ft : String) (lines : List String) (N : Nat)
    (hvg : goodToken vg) (hlv : goodToken lv) (hp : goodToken path)
    (hf : goodToken ft)
    (hN : lines.countP (fun l => isActiveEntryFor path l) = N)
    (hnone : ∀ l ∈ lines,
      classifyLine path (lvDevice vg lv) (lvMapper vg lv) l ≠ .correct) :
    (update_fstab path (lvDevice vg lv) (lvMapper vg lv) ft lines).1 = true ∧
    ((update_fstab path (lvDevice vg lv) (lvMapper vg lv) ft lines).2.length =
      lines.length + 1) ∧
    ((update_fstab path (lvDevice vg lv) (lvMapper vg lv) ft lines).2.countP
      (fun l => isActiveEntryFor path l) = 1) ∧
    ((update_fstab path (lvDevice vg lv) (lvMapper vg lv) ft lines).2.countP
      (fun l => classifyLine path (lvDevice vg lv) (lvMapper vg lv) l ==
        LineClass.correct) = 1) ∧
    ((update_fstab path (lvDevice vg lv) (lvMapper vg lv) ft lines).2.countP
      (fun l => isCommentLine l) =
      lines.countP (fun l => isCommentLine l) + N) ∧
    (update_fstab path (lvDevice vg lv) (lvMapper vg lv) ft
      (update_fstab path (lvDevice vg lv) (lvMapper vg lv) ft lines).2 =
      (false, (update_fstab path (lvDevice vg lv) (lvMapper vg lv) ft lines).2)) := by
  set dev := lvDevice vg lv with hdev
  set mapper := lvMapper vg lv with hmapper
  have hCzero : lines.countP
      (fun l => classifyLine path dev mapper l == LineClass.correct) = 0 := by
    apply List.countP_eq_zero.mpr
    intro l hl
    simp [hnone l hl]
  have hPn : lines.countP
      (fun l => classifyLine path dev mapper l == LineClass.previousEntry) = N := by
    have := countP_active_split path dev mapper lines
    rw [hN, hCzero] at this
    omega
  have hanyC : lines.any
      (fun l => classifyLine path dev mapper l == LineClass.correct) = false := by
    rw [List.any_eq_false]
    intro l hl
    simp [hnone l hl]
  have hscan1 : (check_fstab_entry path dev mapper lines).1 = false := hanyC
  have hscan2 : (check_fstab_entry path dev mapper lines).2 = N := hPn
  have hchanged : (update_fstab path dev mapper ft lines).1 = true := by
    simp only [update_fstab]
    rw [hscan1]
    simp
  have hresult : (update_fstab path dev mapper ft lines).2 =
      commentStale path dev mapper lines ++ [mkFstabLine dev path ft] := by
    simp only [update_fstab]
    rw [hscan1]
    simp
  have hnewC : classifyLine path dev mapper (mkFstabLine dev path ft) =
      LineClass.correct := classify_mkFstabLine vg lv path ft hvg hlv hp hf
  have hC1 : (update_fstab path dev mapper ft lines).2.countP
      (fun l => classifyLine path dev mapper l == LineClass.correct) = 1 := by
    rw [hresult, List.countP_append, countP_correct_commentStale, hCzero]
    simp [hnewC]
  have hP0 : (update_fstab path dev mapper ft lines).2.countP
      (fun l => classifyLine path dev mapper l == LineClass.previousEntry) = 0 := by
    rw [hresult, List.countP_append, countP_prev_commentStale]
    simp [hnewC]
  refine ⟨hchanged, ?_, ?_, hC1, ?_, ?_⟩
  · rw [hresult]
    simp [commentStale]
  · rw [countP_active_split path dev mapper, hC1, hP0]
  · rw [hresult, List.countP_append, countP_comment_commentStale, hPn]
    have : isCommentLine (mkFstabLine dev path ft) = false :=
      isComment_mkFstabLine vg lv path ft
    simp [this]
  · have hany2 : ((update_fstab path dev mapper ft lines).2).any
        (fun l => classifyLine path dev mapper l == LineClass.correct) = true := by
      rw [List.any_eq_true]
      by_contra hcontra
      have hzero : (update_fstab path dev mapper ft lines).2.countP
          (fun l => classifyLine path dev mapper l == LineClass.correct) = 0 :=
        List.countP_eq_zero.mpr (fun l hl hbad => hcontra ⟨l, hl, hbad⟩)
      omega
    conv_lhs => rw [update_fstab]
    rw [show (check_fstab_entry path dev mapper
        (update_fstab path dev mapper ft lines).2).1 = true from hany2]
    rw [show (check_fstab_entry path dev mapper
        (update_fstab path dev mapper ft lines).2).2 = 0 from hP0]
    simp

/-- Witness for `fstab_single_active_entry`: one stale `/dev/sda1` entry
for `/var`. -/
theorem fstab_single_active_entry_witness :
    (update_fstab "/var" (lvDevice "vg0" "lv0") (lvMapper "vg0" "lv0") "ext4"
      ["/dev/sda1 /var ext4 defaults 0 0\n"]).1 = true ∧
    ((update_fstab "/var" (lvDevice "vg0" "lv0") (lvMapper "vg0" "lv0") "ext4"
      ["/dev/sda1 /var ext4 defaults 0 0\n"]).2.length =
      (["/dev/sda1 /var ext4 defaults 0 0\n"] : List String).length + 1) ∧
    ((update_fstab "/var" (lvDevice "vg0" "lv0") (lvMapper "vg0" "lv0") "ext4"
      ["/dev/sda1 /var ext4 defaults 0 0\n"]).2.countP
      (fun l => isActiveEntryFor "/var" l) = 1) ∧
    ((update_fstab "/var" (lvDevice "vg0" "lv0") (lvMapper "vg0" "lv0") "ext4"
      ["/dev/sda1 /var ext4 defaults 0 0\n"]).2.countP
      (fun l => classifyLine "/var" (lvDevice "vg0" "lv0") (lvMapper "vg0" "lv0") l ==
        LineClass.correct) = 1) ∧
    ((update_fstab "/var" (lvDevice "vg0" "lv0") (lvMapper "vg0" "lv0") "ext4"
      ["/dev/sda1 /var ext4 defaults 0 0\n"]).2.countP
      (fun l => isCommentLine l) =
      (["/dev/sda1 /var ext4 defaults 0 0\n"] : List String).countP
        (fun l => isCommentLine l) + 1) ∧
    (update_fstab "/var" (lvDevice "vg0" "lv0") (lvMapper "vg0" "lv0") "ext4"
      (update_fstab "/var" (lvDevice "vg0" "lv0") (lvMapper "vg0" "lv0") "ext4"
        ["/dev/sda1 /var ext4 defaults 0 0\n"]).2 =
      (false, (update_fstab "/var" (lvDevice "vg0" "lv0") (lvMapper "vg0" "lv0") "ext4"
        ["/dev/sda1 /var ext4 defaults 0 0\n"]).2)) :=
  fstab_single_active_entry "vg0" "lv0" "/var" "ext4"
    ["/dev/sda1 /var ext4 defaults 0 0\n"] 1
    (by decide) (by decide) (by decide) (by decide) (by decide) (by decide)

/-- C1: a run against an already-converged system (block device valid and
unclaimed, group present with the device as member, volume present, size
already satisfied, filesystem present, fstab already correct with no stale
entries) reports `changed = false` and leaves the fstab content unchanged,
in apply mode and in check mode alike. -/
theorem reconcile_idempotent_on_converged
    (p : Params) (cm : Bool) (st : SysState)
    (hb : st.blockDevOk = true) (hu : st.deviceInUse = false)
    (hvg : st.vgExists = true) (hmem : st.resolvedDevice ∈ st.vgMemberPVs)
    (hlv : st.lvExists = true)
    (req : Nat) (hsz : size_to_bytes p.size = some req)
    (hle : req ≤ st.lvSizeBytes)
    (hfs : st.fsType ≠ "")
    (hcor : (check_fstab_entry (rstripSlash p.path) (lvDevice p.vg p.lv)
      (lvMapper p.vg p.lv) st.fstab).1 = true)
    (hprev : (check_fstab_entry (rstripSlash p.path) (lvDevice p.vg p.lv)
      (lvMapper p.vg p.lv) st.fstab).2 = 0) :
    runModule p cm st =
      .ok { changed := false, rebootRequired := false, actions := [],
            fstab := st.fstab } := by
  have hlt : ¬ (st.lvSizeBytes < req) := by omega
  have hfs' : (st.fsType == "") = false := by simp [hfs]
  cases cm <;>
    simp [runModule, vgStage, resizeStage, syncStage, hb, hu, hvg, hmem,
      hlv, hsz, hlt, hfs', hcor, hprev]

/-- Witness for `reconcile_idempotent_on_converged` at `exParams` /
`exConverged`. -/
theorem reconcile_idempotent_on_converged_witness :
    runModule exParams false exConverged =
      .ok { changed := false, rebootRequired := false, actions := [],
            fstab := exConverged.fstab } :=
  reconcile_idempotent_on_converged exParams false exConverged
    rfl rfl rfl (by decide) rfl 10737418240 (by decide) (by decide)
    (by decide) (by decide) (by decide)

/-! ### Dry-run parity -/

lemma vgStage_parity (p : Params) (st : SysState)
    (h : st.vgExists = true → st.resolvedDevice ∈ st.vgMemberPVs) :
    vgStage p true st = vgStage p false st := by
  unfold vgStage
  cases hv : st.vgExists
  · simp [hv]
  · simp [hv, h hv]

lemma syncStage_parity (p : Params) (st : SysState) (fsCreated : Bool)
    (dev : String) (hm : st.mountOk = true) (hr : st.rsyncOk = true) :
    syncStage p true st fsCreated dev = syncStage p false st fsCreated dev := by
  unfold syncStage
  cases hd : st.pathIsDir <;> cases hne : st.pathNonEmpty <;>
    simp [hm, hr]

lemma vgStage_ok (p : Params) (cm : Bool) (st : SysState)
    (h : st.vgExists = true → st.resolvedDevice ∈ st.vgMemberPVs) :
    vgStage p cm st = .ok (!st.vgExists) := by
  unfold vgStage
  cases cm <;> cases hv : st.vgExists <;> simp [hv]
  exact h hv

lemma syncStage_fsFalse (p : Params) (cm : Bool) (st : SysState)
    (dev : String) : syncStage p cm st false dev = .ok false := by
  unfold syncStage
  cases cm <;> simp

lemma syncStage_run_ok (p : Params) (cm : Bool) (st : SysState) (fsC : Bool)
    (dev : String) (hm : st.mountOk = true) (hr : st.rsyncOk = true) :
    syncStage p cm st fsC dev =
      .ok (p.sync && fsC && (!st.pathIsDir || st.pathNonEmpty)) := by
  unfold syncStage
  cases cm <;> cases hsy : p.sync <;> cases fsC <;>
    cases hd : st.pathIsDir <;> cases hne : st.pathNonEmpty <;>
      simp [hm, hr, hsy, hd, hne]

/-- C3 (amended): provided the volume-group membership precheck holds (the
one probe check mode skips) and the external mount and rsync commands
succeed, a check-mode run reports exactly the actions, in the same order,
that an apply-mode run performs from the same state — including agreeing
on fatal errors — and the check-mode run leaves the fstab content
unmutated.  (The unamended claim is refuted by
`dryrun_parity_counterexample`.) -/
theorem dryrun_action_parity_conditional (p : Params) (st : SysState)
    (hvg : st.vgExists = true → st.resolvedDevice ∈ st.vgMemberPVs)
    (hm : st.mountOk = true) (hr : st.rsyncOk = true) :
    (runModule p true st).map RunResult.actions =
      (runModule p false st).map RunResult.actions ∧
    (runModule p true st).map RunResult.fstab =
      (runModule p true st).map (fun _ => st.fstab) := by
  unfold runModule
  rw [vgStage_parity p st hvg]
  rw [syncStage_parity p st (!st.lvExists || (st.fsType == "")) (lvDevice p.vg p.lv) hm hr]
  cases h1 : vgStage p false st with
  | error e =>
    constructor <;>
      (by_cases hb : st.blockDevOk <;> by_cases hu : st.deviceInUse <;>
        simp [hb, hu, Except.map])
  | ok vgChanged =>
    cases h2 : resizeStage p st with
    | error e =>
      constructor <;>
        (by_cases hb : st.blockDevOk <;> by_cases hu : st.deviceInUse <;>
          simp [hb, hu, Except.map])
    | ok resized =>
      cases h3 : syncStage p false st (!st.lvExists || (st.fsType == ""))
          (lvDevice p.vg p.lv) with
      | error e =>
        constructor <;>
          (by_cases hb : st.blockDevOk <;> by_cases hu : st.deviceInUse <;>
            simp [hb, hu, Except.map])
      | ok syncChanged =>
        constructor <;>
          (by_cases hb : st.blockDevOk <;> by_cases hu : st.deviceInUse <;>
            simp [hb, hu, Except.map])

/-- Counterexample to C3 as stated: when the volume group exists but the
device is not one of its physical volumes, an apply-mode run fails fatally
before performing any action, while a check-mode run from the same state
(which skips that membership probe) reports a non-empty action plan. -/
theorem dryrun_parity_counterexample :
    (runModule exParams true exMismatch).map RunResult.actions =
      .ok [Action.createLV, Action.createFS, Action.updateFstab,
        Action.syncData] ∧
    runModule exParams false exMismatch = .error (vgMismatchMsg exParams) := by
  constructor <;> rfl

/-- Witness for `dryrun_action_parity_conditional` at `exParams` /
`exFresh`. -/
theorem dryrun_action_parity_witness :
    (runModule exParams true exFresh).map RunResult.actions =
      (runModule exParams false exFresh).map RunResult.actions ∧
    (runModule exParams true exFresh).map RunResult.fstab =
      (runModule exParams true exFresh).map (fun _ => exFresh.fstab) :=
  dryrun_action_parity_conditional exParams exFresh (by decide) rfl rfl

/-- C5 (amended): in apply mode, a run whose volume group exists without
the (resolved) target device among its resolved physical volumes fails
fatally with the configuration-inconsistency message; the model contains
no group-extension operation at all, so the group is never extended.  (The
unamended claim — "every run" — is refuted for check mode by
`vg_mismatch_checkmode_counterexample`.) -/
theorem vg_mismatch_fatal_in_apply_mode (p : Params) (st : SysState)
    (hb : st.blockDevOk = true) (hu : st.deviceInUse = false)
    (hvg : st.vgExists = true)
    (hmem : st.resolvedDevice ∉ st.vgMemberPVs) :
    runModule p false st = .error (vgMismatchMsg p) := by
  unfold runModule vgStage
  simp [hb, hu, hvg, hmem]

/-- Counterexample to C5 as stated: the same mismatched state in check
mode does not fail (the membership probe is skipped in check mode); the
run exits successfully with a reported plan. -/
theorem vg_mismatch_checkmode_counterexample :
    (runModule exParams true exMismatch).isOk = true := rfl

/-- Witness for `vg_mismatch_fatal_in_apply_mode` at `exParams` /
`exMismatch`. -/
theorem vg_mismatch_fatal_witness :
    runModule exParams false exMismatch = .error (vgMismatchMsg exParams) :=
  vg_mismatch_fatal_in_apply_mode exParams exMismatch rfl rfl rfl (by decide)

/-- C4 (amended): when the logical volume exists, the requested size
(normalized to bytes) is at most the current size, and the volume already
carries a filesystem signature, the run performs neither a resize nor a
filesystem-create action, in either mode.  (The unamended claim — without
the filesystem-signature hypothesis — is refuted by
`monotonic_sizing_counterexample`: an unformatted volume triggers a
filesystem-create action regardless of sizing.) -/
theorem no_resize_or_format_when_size_le (p : Params) (cm : Bool)
    (st : SysState)
    (hb : st.blockDevOk = true) (hu : st.deviceInUse = false)
    (hvg : st.vgExists = true → st.resolvedDevice ∈ st.vgMemberPVs)
    (hlv : st.lvExists = true)
    (req : Nat) (hsz : size_to_bytes p.size = some req)
    (hle : req ≤ st.lvSizeBytes) (hfs : st.fsType ≠ "") :
    ∃ r, runModule p cm st = .ok r ∧ Action.resizeLV ∉ r.actions ∧
      Action.createFS ∉ r.actions := by
  have hlt : ¬ (st.lvSizeBytes < req) := by omega
  have hfs' : (st.fsType == "") = false := by simp [hfs]
  cases cm <;>
  · simp only [runModule, vgStage_ok p _ st hvg, resizeStage, hb, hu, hlv,
      hsz, hfs', Bool.not_true, Bool.false_eq_true, if_false, if_true,
      Bool.or_self, Bool.or_false, Bool.false_or, syncStage_fsFalse]
    refine ⟨_, rfl, ?_, ?_⟩
    · simp [hlt]
    · simp [hlt]

/-- Counterexample to C4 as stated: the logical volume exists with size
10GiB, `10G` is requested (equal, so no resize is due), yet because the
volume carries no filesystem signature a filesystem-create action is
triggered — sizing does not prevent it. -/
theorem monotonic_sizing_counterexample :
    size_to_bytes exParams.size = some exConverged.lvSizeBytes ∧
    (runModule exParams false exUnformatted).map RunResult.actions =
      .ok [Action.createFS, Action.updateFstab, Action.syncData] := by
  constructor <;> rfl

/-- Witness for `no_resize_or_format_when_size_le` at `exParams` /
`exConverged`. -/
theorem no_resize_or_format_witness :
    ∃ r, runModule exParams false exConverged = .ok r ∧
      Action.resizeLV ∉ r.actions ∧ Action.createFS ∉ r.actions :=
  no_resize_or_format_when_size_le exParams false exConverged rfl rfl
    (by decide) rfl 10737418240 (by decide) (by decide) (by decide)

/-! ### Exclusion-pattern resolution (C6) -/

/-- C6: with no explicit exclusion list, migrating `/var` applies exactly
the defaults `log/*`, `tmp/*` plus the always-applied lost+found
exclusion (the pattern is spelled `lost+found` in `filesystem_sync` and
`lost+found/` in `dedicated_disk_partition`); an explicitly empty list
leaves only the lost+found exclusion, for every path, in both modules. -/
theorem exclusion_default_resolution :
    fsSyncRsyncExcludes "/var" none = ["lost+found", "log/*", "tmp/*"] ∧
    dedicatedRsyncExcludes exParams = ["lost+found/", "log/*", "tmp/*"] ∧
    (∀ path, fsSyncRsyncExcludes path (some []) = ["lost+found"]) ∧
    (∀ d vg lv sz ft sy path,
      dedicatedRsyncExcludes ⟨d, vg, lv, sz, ft, sy, path, some []⟩ =
        ["lost+found/"]) := by
  refine ⟨rfl, rfl, fun path => rfl, fun d vg lv sz ft sy path => rfl⟩

/-! ### The appended fstab line (C7) -/

/-- Counterexample to C7 as stated: for the non-transient path `/var` the
claim requires pass number 2, but the line appended by `update_fstab`
always carries dump flag 0 and pass number 0. -/
theorem fstab_pass_number_counterexample :
    (fieldsOf (mkFstabLine (lvDevice "vg0" "lv0") "/var" "ext4"))[5]? =
      some "0" ∧
    (fieldsOf (mkFstabLine (lvDevice "vg0" "lv0") "/var" "ext4"))[5]? ≠
      some "2" := by
  constructor
  · rfl
  · decide

/-- C7 (amended): for every path the appended line consists of exactly the
logical-volume device, the path, the resolved filesystem type, the fixed
options `defaults`, dump flag `0`, and pass number `0` — the pass number
is `0` unconditionally, not 2-with-transient-exceptions. -/
theorem fstab_appended_line_fields (vg lv path ft : String)
    (hvg : goodToken vg) (hlv : goodToken lv) (hp : goodToken path)
    (hf : goodToken ft) :
    fieldsOf (mkFstabLine (lvDevice vg lv) path ft) =
      [lvDevice vg lv, path, ft, "defaults", "0", "0"] :=
  fieldsOf_mkFstabLine (lvDevice vg lv) path ft
    (goodToken_lvDevice vg lv hvg hlv) hp hf

/-- Witness for `fstab_appended_line_fields`. -/
theorem fstab_appended_line_fields_witness :
    fieldsOf (mkFstabLine (lvDevice "vg0" "lv0") "/home" "xfs") =
      [lvDevice "vg0" "lv0", "/home", "xfs", "defaults", "0", "0"] :=
  fstab_appended_line_fields "vg0" "lv0" "/home" "xfs"
    (by decide) (by decide) (by decide) (by decide)

/-! ### Migration failure handling and cleanup (C8) -/

/-- C8: in a data migration that reaches the mount step (source directory
present and non-empty), a non-zero mount or rsync exit makes the result an
error; on every exit path of that section, error or success, the trace
ends with the unmount and the removal of the temporary mount directory —
in `sync_data` and in `filesystem_sync`'s mount section alike.  At the
orchestration level, when the freshly-created filesystem is to be synced,
a failing mount or rsync makes the whole `main` run fail. -/
theorem sync_failure_fatal_and_cleanup :
    (∀ (mOk rOk : Bool) (dev : String),
      ((mOk = false ∨ rOk = false) →
        (sync_data_traced true true mOk rOk dev).1.isOk = false) ∧
      (sync_data_traced true true mOk rOk dev).2.reverse.take 2 =
        [SyncEv.rmdirTemp, SyncEv.umount] ∧
      ((mOk = false ∨ rOk = false) →
        (fsSyncTraced mOk rOk dev).1.isOk = false) ∧
      (fsSyncTraced mOk rOk dev).2.reverse.take 2 =
        [SyncEv.rmdirTemp, SyncEv.umount]) ∧
    (∀ (p : Params) (st : SysState), st.blockDevOk = true →
      st.deviceInUse = false →
      (st.vgExists = true → st.resolvedDevice ∈ st.vgMemberPVs) →
      st.lvExists = false → p.sync = true → st.pathIsDir = true →
      st.pathNonEmpty = true → st.mountOk = false →
      runModule p false st =
        .error ("Failed to mount " ++ lvDevice p.vg p.lv ++ ": <err>")) ∧
    (∀ (p : Params) (st : SysState), st.blockDevOk = true →
      st.deviceInUse = false →
      (st.vgExists = true → st.resolvedDevice ∈ st.vgMemberPVs) →
      st.lvExists = false → p.sync = true → st.pathIsDir = true →
      st.pathNonEmpty = true → st.mountOk = true → st.rsyncOk = false →
      runModule p false st = .error "Rsync failed: <err>") := by
  refine ⟨?_, ?_, ?_⟩
  · intro mOk rOk dev
    refine ⟨?_, ?_, ?_, ?_⟩ <;>
      cases mOk <;> cases rOk <;>
        simp [sync_data_traced, fsSyncTraced, Except.isOk, Except.toBool]
  · intro p st hb hu hvg hlv hsy hd hne hm
    simp [runModule, vgStage_ok p false st hvg, resizeStage, syncStage,
      hb, hu, hlv, hsy, hd, hne, hm]
  · intro p st hb hu hvg hlv hsy hd hne hm hr
    simp [runModule, vgStage_ok p false st hvg, resizeStage, syncStage,
      hb, hu, hlv, hsy, hd, hne, hm, hr]

/-- Witness for `sync_failure_fatal_and_cleanup`: a failing mount is fatal
and its trace still ends with the cleanup pair. -/
theorem sync_failure_fatal_and_cleanup_witness :
    (sync_data_traced true true false true "/dev/vg0/lv0").1.isOk = false ∧
    (sync_data_traced true true false true "/dev/vg0/lv0").2.reverse.take 2 =
      [SyncEv.rmdirTemp, SyncEv.umount] ∧
    runModule exParams false exMountFail =
      .error ("Failed to mount " ++ lvDevice "vg0" "lv0" ++ ": <err>") :=
  ⟨(sync_failure_fatal_and_cleanup.1 false true "/dev/vg0/lv0").1 (Or.inl rfl),
   (sync_failure_fatal_and_cleanup.1 false true "/dev/vg0/lv0").2.1,
   sync_failure_fatal_and_cleanup.2.1 exParams exMountFail rfl rfl (by decide)
     rfl rfl rfl rfl rfl⟩

/-! ### Mount-unit masking (C9) -/

/-- C9: the unit name is the slash-stripped, dash-joined path suffixed
`.mount`; an unqueryable or already-masked unit yields no action; an
unmasked queryable unit is masked-and-reloaded in apply mode and merely
reported in dry-run mode; and in the composed reconciliation the mask
stage is evaluated only after the module run has succeeded, as the final
stage. -/
theorem mount_unit_mask_behavior :
    unitNameOfPath "/var/log" = "var-log.mount" ∧
    unitNameOfPath "/tmp/" = "tmp.mount" ∧
    (∀ (path : String) (masked canQ cm : Bool),
      (canQ = false ∨ masked = true) →
      maskConflicting path masked canQ cm = .noAction) ∧
    (∀ path : String, maskConflicting path false true false =
      .maskedAndReloaded (unitNameOfPath path)) ∧
    (∀ path : String, maskConflicting path false true true =
      .wouldMask (unitNameOfPath path)) ∧
    (∀ (p : Params) (cm : Bool) (st : SysState) (m q : Bool)
      (r : RunResult) (o : MaskOutcome),
      reconcileFull p cm st m q = .ok (r, o) →
      runModule p cm st = .ok r ∧ o = maskConflicting p.path m q cm) := by
  refine ⟨rfl, rfl, ?_, fun path => rfl, fun path => rfl, ?_⟩
  · intro path masked canQ cm h
    unfold maskConflicting
    rcases h with h | h <;> simp [h]
  · intro p cm st m q r o h
    unfold reconcileFull at h
    cases hrm : runModule p cm st with
    | error e => rw [hrm] at h; cases h
    | ok r' =>
      rw [hrm] at h
      simp only [Except.ok.injEq, Prod.mk.injEq] at h
      exact ⟨by rw [h.1], h.2.symm⟩

/-- Witness for `mount_unit_mask_behavior`. -/
theorem mount_unit_mask_behavior_witness :
    maskConflicting "/var" true true false = .noAction ∧
    maskConflicting "/var" false true false =
      .maskedAndReloaded (unitNameOfPath "/var") :=
  ⟨mount_unit_mask_behavior.2.2.1 "/var" true true false (Or.inr rfl),
   mount_unit_mask_behavior.2.2.2.1 "/var"⟩

/-! ### Size parsing and its gating (C10) -/

/-- C10: `size_to_bytes` accepts an integer or decimal number with an
optional B/K/M/G/T suffix (binary multipliers, bytes when absent,
fractions truncated) and rejects anything else; the parse runs only when
the logical volume already exists, where a malformed size aborts the run
with the fatal "Size comparison failed" error (in either mode, before any
resize); when the volume is absent the size string flows to the creation
command unvalidated and the run does not fail on it. -/
theorem size_parse_gated_by_lv_existence :
    size_to_bytes "1K" = some 1024 ∧
    size_to_bytes "1.5G" = some 1610612736 ∧
    size_to_bytes "2" = some 2 ∧
    size_to_bytes "0.5" = some 0 ∧
    size_to_bytes "10X" = none ∧
    size_to_bytes "" = none ∧
    (∀ (p : Params) (st : SysState) (cm : Bool), st.blockDevOk = true →
      st.deviceInUse = false →
      (st.vgExists = true → st.resolvedDevice ∈ st.vgMemberPVs) →
      st.lvExists = true → size_to_bytes p.size = none →
      runModule p cm st =
        .error "Size comparison failed: Invalid size format") ∧
    (∀ (p : Params) (st : SysState), st.blockDevOk = true →
      st.deviceInUse = false →
      (st.vgExists = true → st.resolvedDevice ∈ st.vgMemberPVs) →
      st.lvExists = false → st.mountOk = true → st.rsyncOk = true →
      ∃ r, runModule p false st = .ok r) := by
  refine ⟨rfl, rfl, rfl, rfl, rfl, rfl, ?_, ?_⟩
  · intro p st cm hb hu hvg hlv hbad
    simp [runModule, vgStage_ok p cm st hvg, resizeStage, hb, hu, hlv, hbad]
  · intro p st hb hu hvg hlv hm hr
    simp [runModule, vgStage_ok p false st hvg, resizeStage,
      syncStage_run_ok p false st _ _ hm hr, hb, hu, hlv]

/-- Witness for `size_parse_gated_by_lv_existence`: the malformed size
`banana` is fatal when the volume exists and harmless when it does not. -/
theorem size_parse_gated_witness :
    runModule exBadSize false exConverged =
      .error "Size comparison failed: Invalid size format" ∧
    ∃ r, runModule exBadSize false exFresh = .ok r :=
  ⟨size_parse_gated_by_lv_existence.2.2.2.2.2.2.1 exBadSize exConverged false
    rfl rfl (by decide) rfl rfl,
   size_parse_gated_by_lv_existence.2.2.2.2.2.2.2 exBadSize exFresh
    rfl rfl (by decide) rfl rfl rfl⟩

end CisHardening
